import Mathlib

/-!
Verification of the alerting "abilities" resolver
(`public/app/features/alerting/unified/hooks/useAbilities.ts`) and of the
public-dashboard update payload
(`ConfigPublicDashboard.tsx`), shallowly embedded in Lean.

React hooks become pure functions: the permission collaborator
(`ctx.hasPermission`), the rule-editability collaborator
(`useIsRuleEditable`) and the alertmanager-choice query result are passed
in explicitly as arguments, since the resolver only samples their current
snapshot.
-/

namespace Abilities

/-- The subset of `AccessControlAction` identifiers used by this excerpt. -/
inductive AccessControlAction
  | AlertingRuleCreate
  | AlertingRuleRead
  | AlertingRuleUpdate
  | AlertingRuleDelete
  | AlertingRuleExternalWrite
  | AlertingRuleExternalRead
  | AlertingInstanceCreate
  | AlertingNotificationsExternalRead
  | AlertingNotificationsExternalWrite
  | DataSourcesExplore
  | DashboardsPublicWrite
  deriving DecidableEq, Repr

/-- Operations a scoped permission set can name (create/read/update/delete). -/
inductive PermOp
  | create
  | read
  | update
  | delete
  deriving DecidableEq, Repr

/-- A permission identifier handed to the permission collaborator.
`acp` embeds a global `AccessControlAction`; the scoped constructors stand
for the identifiers produced by `getRulesPermissions`,
`getNotificationsPermissions` and `getInstancesPermissions`
(namespaced by rules-source or selected alertmanager). -/
inductive PermissionId
  | acp : AccessControlAction → PermissionId
  | rules : String → PermOp → PermissionId
  | notifications : String → PermOp → PermissionId
  | notificationsProvisioningReadSecrets : String → PermissionId
  | instances : String → PermOp → PermissionId
  deriving DecidableEq, Repr

/-- The permission collaborator `ctx.hasPermission`: synchronous boolean
check keyed by a permission identifier. -/
def PermissionCtx : Type := PermissionId → Bool

/-- `Ability = [actionSupported, actionAllowed]`. -/
def Ability : Type := Bool × Bool

/-- `const AlwaysSupported = true`. -/
def AlwaysSupported : Bool := true

/-- `const NotSupported = false`. -/
def NotSupported : Bool := false

/-- `toAbility(supported, action) = [supported, ctx.hasPermission(action)]`. -/
def toAbility (ctx : PermissionCtx) (supported : Bool) (action : PermissionId) : Ability :=
  (supported, ctx action)

/-- `RulesSource = string | DataSourceInstanceSettings`: either the plain
string name of the built-in source, or a data-source settings object of
which only `.name` is read here. -/
inductive RulesSource
  | named : String → RulesSource
  | dataSourceSettings : String → RulesSource
  deriving DecidableEq, Repr

/-- `GRAFANA_RULES_SOURCE_NAME = 'grafana'` (from `utils/datasource`). -/
def GRAFANA_RULES_SOURCE_NAME : String := "grafana"

/-- `typeof rulesSource === 'string' ? rulesSource : rulesSource.name`. -/
def rulesSourceNameOf : RulesSource → String
  | RulesSource.named s => s
  | RulesSource.dataSourceSettings s => s

/-- `rulesSource === GRAFANA_RULES_SOURCE_NAME`: strict equality with the
built-in source's name, so a settings object never compares equal. -/
def isGrafanaRulesSource : RulesSource → Bool
  | RulesSource.named s => decide (s = GRAFANA_RULES_SOURCE_NAME)
  | RulesSource.dataSourceSettings _ => false

/-- Modelled from the spec: the ruler-side representation of a rule. The
spec describes the rule descriptor as carrying a provenance flag that only
Grafana-managed ruler rules have (`rulerRule.grafana_alert.provenance`,
an optional string); rules of other sources carry none. -/
inductive RulerRule
  | grafanaRule : Option String → RulerRule
  | externalRule : RulerRule
  deriving DecidableEq, Repr

/-- Modelled from the spec: `isGrafanaRulerRule` from `utils/rules` is not
in the excerpt; per the spec it recognises rules of the built-in engine's
ruler (the shape carrying `grafana_alert`). -/
def isGrafanaRulerRule : Option RulerRule → Bool
  | some (RulerRule.grafanaRule _) => true
  | _ => false

/-- The provenance string of a Grafana ruler rule, when present. -/
def ruleProvenance : Option RulerRule → Option String
  | some (RulerRule.grafanaRule p) => p
  | _ => none

/-- Modelled from the spec: a combined rule group. `isFederatedRuleGroup`
from `utils/rules` is not in the excerpt; the spec reduces it to a
federation flag on the rule's group ("belongs to a federated rule group"). -/
structure RuleGroup where
  federated : Bool
  deriving DecidableEq, Repr

/-- Modelled from the spec: the federation flag of the rule's group. -/
def isFederatedRuleGroup (g : RuleGroup) : Bool :=
  g.federated

/-- The namespace object of a combined rule; only `.rulesSource` is read. -/
structure RuleNamespace where
  rulesSource : RulesSource
  deriving DecidableEq, Repr

/-- The parts of `CombinedRule` the resolver reads (`rule.namespace`
renamed `ruleNamespace`: `namespace` is a Lean keyword). -/
structure CombinedRule where
  ruleNamespace : RuleNamespace
  group : RuleGroup
  rulerRule : Option RulerRule
  deriving DecidableEq, Repr

/-- `isProvisioned = isGrafanaRulerRule(rule.rulerRule) &&
Boolean(rule.rulerRule.grafana_alert.provenance)` — JS truthiness of the
optional provenance string: absent or empty is false. -/
def isProvisionedRule (rule : CombinedRule) : Bool :=
  isGrafanaRulerRule rule.rulerRule &&
    (match ruleProvenance rule.rulerRule with
     | some s => !s.isEmpty
     | none => false)

/-- `immutableRule = isProvisioned || isFederated`. -/
def immutableRule (rule : CombinedRule) : Bool :=
  isProvisionedRule rule || isFederatedRuleGroup rule.group

/-- The snapshot returned by the rule-editability collaborator
`useIsRuleEditable`: three optional flags and a loading flag. -/
structure IsRuleEditableResult where
  isEditable : Option Bool
  isRemovable : Option Bool
  isRulerAvailable : Option Bool
  loading : Bool
  deriving DecidableEq, Repr

/-- `const MaybeSupported = loading ? NotSupported : isRulerAvailable`
(with `isRulerAvailable = false` as the destructuring default). -/
def maybeSupported (editState : IsRuleEditableResult) : Bool :=
  if editState.loading then NotSupported else editState.isRulerAvailable.getD false

/-- `const MaybeSupportedUnlessImmutable = immutableRule ? NotSupported :
MaybeSupported`. -/
def maybeSupportedUnlessImmutable (rule : CombinedRule) (editState : IsRuleEditableResult) : Bool :=
  if immutableRule rule then NotSupported else maybeSupported editState

/-- Modelled from the spec: `getRulesPermissions` from
`utils/access-control` is not in the excerpt; per the spec it yields
create/read/update/delete permission identifiers scoped by the
rules-source name. -/
structure RulesPermissions where
  create : PermissionId
  read : PermissionId
  update : PermissionId
  delete : PermissionId
  deriving DecidableEq, Repr

/-- Modelled from the spec: source-scoped rule permissions. -/
def getRulesPermissions (sourceName : String) : RulesPermissions where
  create := PermissionId.rules sourceName PermOp.create
  read := PermissionId.rules sourceName PermOp.read
  update := PermissionId.rules sourceName PermOp.update
  delete := PermissionId.rules sourceName PermOp.delete

/-- `AlertmanagerChoice` from the alertmanager datasource types. -/
inductive AlertmanagerChoice
  | All
  | Internal
  | External
  deriving DecidableEq, Repr

/-- `currentData` of the alertmanager-choice status query. -/
structure AlertmanagerChoiceStatus where
  alertmanagersChoice : AlertmanagerChoice
  deriving DecidableEq, Repr

/-- The sampled state of `useGetAlertmanagerChoiceStatusQuery`:
`currentData` may still be absent, plus the `isLoading` flag. -/
structure AmChoiceQueryState where
  currentData : Option AlertmanagerChoiceStatus
  isLoading : Bool
  deriving DecidableEq, Repr

/-- `amConfigStatus?.alertmanagersChoice === choice`: optional chaining
yields `false` while `currentData` is absent. -/
def choiceIs (q : AmChoiceQueryState) (c : AlertmanagerChoice) : Bool :=
  match q.currentData with
  | some s => decide (s.alertmanagersChoice = c)
  | none => false

/-- `useCanSilence(rulesSource)`: `(false, false)` for non-Grafana rules or
while the choice query loads; otherwise supported unless alerts go only to
external alertmanagers, paired with the create-silence permission. -/
def useCanSilence (ctx : PermissionCtx) (rulesSource : RulesSource)
    (q : AmChoiceQueryState) : Ability :=
  let isGrafanaManagedRule := isGrafanaRulesSource rulesSource
  if !isGrafanaManagedRule || q.isLoading then
    (false, false)
  else
    let interactsOnlyWithExternalAMs := choiceIs q AlertmanagerChoice.External
    let interactsWithAll := choiceIs q AlertmanagerChoice.All
    let silenceSupported := !interactsOnlyWithExternalAMs || interactsWithAll
    toAbility ctx silenceSupported (PermissionId.acp AccessControlAction.AlertingInstanceCreate)

/-- The general alerting actions enum (`AlertingAction`). -/
inductive AlertingAction
  | CreateAlertRule
  | ViewAlertRule
  | UpdateAlertRule
  | DeleteAlertRule
  | ExportGrafanaManagedRules
  | CreateExternalAlertRule
  | ViewExternalAlertRule
  | UpdateExternalAlertRule
  | DeleteExternalAlertRule
  deriving DecidableEq, Repr

/-- `useAlertingAbilities()`: the fixed table for general alerting actions. -/
def useAlertingAbilities (ctx : PermissionCtx) : AlertingAction → Ability
  | AlertingAction.CreateAlertRule =>
      toAbility ctx AlwaysSupported (PermissionId.acp AccessControlAction.AlertingRuleCreate)
  | AlertingAction.ViewAlertRule =>
      toAbility ctx AlwaysSupported (PermissionId.acp AccessControlAction.AlertingRuleRead)
  | AlertingAction.UpdateAlertRule =>
      toAbility ctx AlwaysSupported (PermissionId.acp AccessControlAction.AlertingRuleUpdate)
  | AlertingAction.DeleteAlertRule =>
      toAbility ctx AlwaysSupported (PermissionId.acp AccessControlAction.AlertingRuleDelete)
  | AlertingAction.ExportGrafanaManagedRules =>
      toAbility ctx AlwaysSupported (PermissionId.acp AccessControlAction.AlertingRuleRead)
  | AlertingAction.CreateExternalAlertRule =>
      toAbility ctx AlwaysSupported (PermissionId.acp AccessControlAction.AlertingRuleExternalWrite)
  | AlertingAction.ViewExternalAlertRule =>
      toAbility ctx AlwaysSupported (PermissionId.acp AccessControlAction.AlertingRuleExternalRead)
  | AlertingAction.UpdateExternalAlertRule =>
      toAbility ctx AlwaysSupported (PermissionId.acp AccessControlAction.AlertingRuleExternalWrite)
  | AlertingAction.DeleteExternalAlertRule =>
      toAbility ctx AlwaysSupported (PermissionId.acp AccessControlAction.AlertingRuleExternalWrite)

/-- `useAlertingAbility(action)`. -/
def useAlertingAbility (ctx : PermissionCtx) (action : AlertingAction) : Ability :=
  useAlertingAbilities ctx action

/-- The static permission identifier each general alerting action is mapped
to in `useAlertingAbilities`, written out for the refinement statement. -/
def alertingActionPermission : AlertingAction → AccessControlAction
  | AlertingAction.CreateAlertRule => AccessControlAction.AlertingRuleCreate
  | AlertingAction.ViewAlertRule => AccessControlAction.AlertingRuleRead
  | AlertingAction.UpdateAlertRule => AccessControlAction.AlertingRuleUpdate
  | AlertingAction.DeleteAlertRule => AccessControlAction.AlertingRuleDelete
  | AlertingAction.ExportGrafanaManagedRules => AccessControlAction.AlertingRuleRead
  | AlertingAction.CreateExternalAlertRule => AccessControlAction.AlertingRuleExternalWrite
  | AlertingAction.ViewExternalAlertRule => AccessControlAction.AlertingRuleExternalRead
  | AlertingAction.UpdateExternalAlertRule => AccessControlAction.AlertingRuleExternalWrite
  | AlertingAction.DeleteExternalAlertRule => AccessControlAction.AlertingRuleExternalWrite

/-- The per-alert-rule actions enum (`AlertRuleAction`). -/
inductive AlertRuleAction
  | Duplicate
  | View
  | Update
  | Delete
  | Explore
  | Silence
  | ModifyExport
  deriving DecidableEq, Repr

/-- `useAllAlertRuleAbilities(rule)`: the ability table for one rule, given
the snapshots of the editability collaborator and the choice query. -/
def useAllAlertRuleAbilities (ctx : PermissionCtx) (rule : CombinedRule)
    (editState : IsRuleEditableResult) (q : AmChoiceQueryState) :
    AlertRuleAction → Ability
  | AlertRuleAction.Duplicate =>
      toAbility ctx (maybeSupported editState)
        (getRulesPermissions (rulesSourceNameOf rule.ruleNamespace.rulesSource)).create
  | AlertRuleAction.View =>
      toAbility ctx AlwaysSupported
        (getRulesPermissions (rulesSourceNameOf rule.ruleNamespace.rulesSource)).read
  | AlertRuleAction.Update =>
      (maybeSupportedUnlessImmutable rule editState, editState.isEditable.getD false)
  | AlertRuleAction.Delete =>
      (maybeSupportedUnlessImmutable rule editState, editState.isRemovable.getD false)
  | AlertRuleAction.Explore =>
      toAbility ctx AlwaysSupported (PermissionId.acp AccessControlAction.DataSourcesExplore)
  | AlertRuleAction.Silence =>
      useCanSilence ctx rule.ruleNamespace.rulesSource q
  | AlertRuleAction.ModifyExport =>
      (maybeSupported editState,
        (useAlertingAbility ctx AlertingAction.ExportGrafanaManagedRules).2)

/-- Modelled from the spec: `getNotificationsPermissions` from
`utils/access-control` is not in the excerpt; per the spec it yields
create/read/update/delete identifiers for the "notifications" set,
namespaced by the selected alertmanager, plus a provisioning
`readSecrets` identifier. -/
structure ProvisioningPermissions where
  readSecrets : PermissionId
  deriving DecidableEq, Repr

/-- The "notifications" permission set of a selected alertmanager. -/
structure NotificationsPermissions where
  create : PermissionId
  read : PermissionId
  update : PermissionId
  delete : PermissionId
  provisioning : ProvisioningPermissions
  deriving DecidableEq, Repr

/-- Modelled from the spec: alertmanager-scoped notifications permissions. -/
def getNotificationsPermissions (am : String) : NotificationsPermissions where
  create := PermissionId.notifications am PermOp.create
  read := PermissionId.notifications am PermOp.read
  update := PermissionId.notifications am PermOp.update
  delete := PermissionId.notifications am PermOp.delete
  provisioning := { readSecrets := PermissionId.notificationsProvisioningReadSecrets am }

/-- Modelled from the spec: `getInstancesPermissions` is not in the
excerpt; per the spec it yields the "instances" (silence) permission set
namespaced by the selected alertmanager. -/
structure InstancesPermissions where
  create : PermissionId
  read : PermissionId
  update : PermissionId
  delete : PermissionId
  deriving DecidableEq, Repr

/-- Modelled from the spec: alertmanager-scoped instance permissions. -/
def getInstancesPermissions (am : String) : InstancesPermissions where
  create := PermissionId.instances am PermOp.create
  read := PermissionId.instances am PermOp.read
  update := PermissionId.instances am PermOp.update
  delete := PermissionId.instances am PermOp.delete

/-- The per-alertmanager actions enum (`AlertmanagerAction`). -/
inductive AlertmanagerAction
  | ViewExternalConfiguration
  | UpdateExternalConfiguration
  | CreateContactPoint
  | ViewContactPoint
  | UpdateContactPoint
  | DeleteContactPoint
  | ExportContactPoint
  | CreateNotificationTemplate
  | ViewNotificationTemplate
  | UpdateNotificationTemplate
  | DeleteNotificationTemplate
  | DecryptSecrets
  | CreateNotificationPolicy
  | ViewNotificationPolicyTree
  | UpdateNotificationPolicyTree
  | DeleteNotificationPolicy
  | ExportNotificationPolicies
  | CreateSilence
  | ViewSilence
  | UpdateSilence
  | ViewMuteTiming
  | CreateMuteTiming
  | UpdateMuteTiming
  | DeleteMuteTiming
  deriving DecidableEq, Repr

/-- The snapshot read from `useAlertmanager()`: the selected alertmanager's
name, its `hasConfigurationAPI` capability and whether it is the built-in
Grafana-flavored alertmanager. -/
structure AlertmanagerContextState where
  selectedAlertmanager : String
  hasConfigurationAPI : Bool
  isGrafanaAlertmanager : Bool
  deriving DecidableEq, Repr

/-- `useAllAlertmanagerAbilities()`: the ability table over all
alertmanager actions for the selected alertmanager context. -/
def useAllAlertmanagerAbilities (ctx : PermissionCtx) (am : AlertmanagerContextState) :
    AlertmanagerAction → Ability :=
  let notificationsPermissions := getNotificationsPermissions am.selectedAlertmanager
  let instancePermissions := getInstancesPermissions am.selectedAlertmanager
  let isGrafanaFlavoredAlertmanager := am.isGrafanaAlertmanager
  fun action =>
    match action with
    | AlertmanagerAction.ViewExternalConfiguration =>
        toAbility ctx AlwaysSupported
          (PermissionId.acp AccessControlAction.AlertingNotificationsExternalRead)
    | AlertmanagerAction.UpdateExternalConfiguration =>
        toAbility ctx am.hasConfigurationAPI
          (PermissionId.acp AccessControlAction.AlertingNotificationsExternalWrite)
    | AlertmanagerAction.CreateContactPoint =>
        toAbility ctx am.hasConfigurationAPI notificationsPermissions.create
    | AlertmanagerAction.ViewContactPoint =>
        toAbility ctx AlwaysSupported notificationsPermissions.read
    | AlertmanagerAction.UpdateContactPoint =>
        toAbility ctx am.hasConfigurationAPI notificationsPermissions.update
    | AlertmanagerAction.DeleteContactPoint =>
        toAbility ctx am.hasConfigurationAPI notificationsPermissions.delete
    | AlertmanagerAction.ExportContactPoint =>
        toAbility ctx isGrafanaFlavoredAlertmanager notificationsPermissions.read
    | AlertmanagerAction.CreateNotificationTemplate =>
        toAbility ctx am.hasConfigurationAPI notificationsPermissions.create
    | AlertmanagerAction.ViewNotificationTemplate =>
        toAbility ctx AlwaysSupported notificationsPermissions.read
    | AlertmanagerAction.UpdateNotificationTemplate =>
        toAbility ctx am.hasConfigurationAPI notificationsPermissions.update
    | AlertmanagerAction.DeleteNotificationTemplate =>
        toAbility ctx am.hasConfigurationAPI notificationsPermissions.delete
    | AlertmanagerAction.DecryptSecrets =>
        toAbility ctx isGrafanaFlavoredAlertmanager
          notificationsPermissions.provisioning.readSecrets
    | AlertmanagerAction.CreateNotificationPolicy =>
        toAbility ctx am.hasConfigurationAPI notificationsPermissions.create
    | AlertmanagerAction.ViewNotificationPolicyTree =>
        toAbility ctx AlwaysSupported notificationsPermissions.read
    | AlertmanagerAction.UpdateNotificationPolicyTree =>
        toAbility ctx am.hasConfigurationAPI notificationsPermissions.update
    | AlertmanagerAction.DeleteNotificationPolicy =>
        toAbility ctx am.hasConfigurationAPI notificationsPermissions.delete
    | AlertmanagerAction.ExportNotificationPolicies =>
        toAbility ctx isGrafanaFlavoredAlertmanager notificationsPermissions.read
    | AlertmanagerAction.CreateSilence =>
        toAbility ctx am.hasConfigurationAPI instancePermissions.create
    | AlertmanagerAction.ViewSilence =>
        toAbility ctx AlwaysSupported instancePermissions.read
    | AlertmanagerAction.UpdateSilence =>
        toAbility ctx am.hasConfigurationAPI instancePermissions.update
    | AlertmanagerAction.CreateMuteTiming =>
        toAbility ctx am.hasConfigurationAPI notificationsPermissions.create
    | AlertmanagerAction.ViewMuteTiming =>
        toAbility ctx AlwaysSupported notificationsPermissions.read
    | AlertmanagerAction.UpdateMuteTiming =>
        toAbility ctx am.hasConfigurationAPI notificationsPermissions.update
    | AlertmanagerAction.DeleteMuteTiming =>
        toAbility ctx am.hasConfigurationAPI notificationsPermissions.delete

end Abilities

namespace PublicDashboards

/-- Modelled from the spec: the `PublicDashboard` object
(`SharePublicDashboardUtils`) is defined outside the excerpt. The update
handler spreads the whole object, so the model carries the three fields it
replaces plus the remaining identifying/configuration fields the object
holds, to state the frame property. -/
structure PublicDashboard where
  uid : String
  dashboardUid : String
  accessToken : Option String
  isEnabled : Bool
  annotationsEnabled : Bool
  timeSelectionEnabled : Bool
  share : String
  recipients : List String
  deriving DecidableEq, Repr

/-- `ConfigPublicDashboardForm`: the three switches of the settings form. -/
structure ConfigPublicDashboardForm where
  isAnnotationsEnabled : Bool
  isTimeSelectionEnabled : Bool
  isPaused : Bool
  deriving DecidableEq, Repr

/-- `onPublicDashboardUpdate(values)`: the payload passed to the update
mutation — the existing public dashboard spread with `annotationsEnabled`,
`timeSelectionEnabled` and `isEnabled = !isPaused` overridden. -/
def onPublicDashboardUpdate (publicDashboard : PublicDashboard)
    (values : ConfigPublicDashboardForm) : PublicDashboard :=
  { publicDashboard with
    annotationsEnabled := values.isAnnotationsEnabled
    timeSelectionEnabled := values.isTimeSelectionEnabled
    isEnabled := !values.isPaused }

end PublicDashboards

namespace Abilities

/-- A permission collaborator granting everything, for concrete witnesses. -/
def allowAllCtx : PermissionCtx := fun _ => true

/-- A permission collaborator granting nothing, for concrete witnesses. -/
def denyAllCtx : PermissionCtx := fun _ => false

/-- A sample external rules-source name. -/
def mimirName : String := "mimir"

/-- A sample non-empty provenance marker. -/
def apiProvenance : String := "api"

/-- A provisioned Grafana-managed rule: Grafana ruler rule with a
non-empty provenance, non-federated group. -/
def provisionedRule : CombinedRule where
  ruleNamespace := { rulesSource := RulesSource.named GRAFANA_RULES_SOURCE_NAME }
  group := { federated := false }
  rulerRule := some (RulerRule.grafanaRule (some apiProvenance))

/-- A plain (non-provisioned, non-federated) Grafana-managed rule. -/
def plainGrafanaRule : CombinedRule where
  ruleNamespace := { rulesSource := RulesSource.named GRAFANA_RULES_SOURCE_NAME }
  group := { federated := false }
  rulerRule := some (RulerRule.grafanaRule none)

/-- A rule from an external data source. -/
def externalSourceRule : CombinedRule where
  ruleNamespace := { rulesSource := RulesSource.dataSourceSettings mimirName }
  group := { federated := false }
  rulerRule := some RulerRule.externalRule

/-- An editability snapshot with everything resolved and ruler available. -/
def readyEditState : IsRuleEditableResult where
  isEditable := some true
  isRemovable := some true
  isRulerAvailable := some true
  loading := false

/-- An editability snapshot still loading, ruler reported available. -/
def loadingEditState : IsRuleEditableResult where
  isEditable := some true
  isRemovable := some true
  isRulerAvailable := some true
  loading := true

/-- An editability snapshot with the optional flags absent. -/
def absentFlagsEditState : IsRuleEditableResult where
  isEditable := none
  isRemovable := none
  isRulerAvailable := some true
  loading := false

/-- A finished choice query routing alerts to all alertmanagers. -/
def allChoiceQuery : AmChoiceQueryState where
  currentData := some { alertmanagersChoice := AlertmanagerChoice.All }
  isLoading := false

/-- A finished choice query routing alerts only to external alertmanagers. -/
def externalChoiceQuery : AmChoiceQueryState where
  currentData := some { alertmanagersChoice := AlertmanagerChoice.External }
  isLoading := false

/-- A choice query still loading. -/
def loadingChoiceQuery : AmChoiceQueryState where
  currentData := none
  isLoading := true

/-- Claim C1: for every provisioned or federated (immutable) alert rule,
the resolved abilities have `supported = false` for Update and Delete
whatever the ruler availability and loading flag, while ModifyExport's
supported component ignores immutability: it equals the
availability-derived value `!loading && isRulerAvailable`. -/
theorem immutable_update_delete_unsupported (ctx : PermissionCtx) (rule : CombinedRule)
    (editState : IsRuleEditableResult) (q : AmChoiceQueryState)
    (h : isProvisionedRule rule = true ∨ isFederatedRuleGroup rule.group = true) :
    (useAllAlertRuleAbilities ctx rule editState q AlertRuleAction.Update).1 = false ∧
    (useAllAlertRuleAbilities ctx rule editState q AlertRuleAction.Delete).1 = false ∧
    (useAllAlertRuleAbilities ctx rule editState q AlertRuleAction.ModifyExport).1 =
      (!editState.loading && editState.isRulerAvailable.getD false) := by
  have himm : immutableRule rule = true := by
    unfold immutableRule
    rcases h with h | h <;> simp [h]
  refine ⟨?_, ?_, ?_⟩
  · simp [useAllAlertRuleAbilities, maybeSupportedUnlessImmutable, himm, NotSupported]
  · simp [useAllAlertRuleAbilities, maybeSupportedUnlessImmutable, himm, NotSupported]
  · simp only [useAllAlertRuleAbilities, maybeSupported, NotSupported]
    cases editState.loading <;> simp

/-- Witness for C1 on a concrete provisioned rule with the ruler available
and not loading. -/
theorem immutable_update_delete_unsupported_witness :
    (isProvisionedRule provisionedRule = true ∨
      isFederatedRuleGroup provisionedRule.group = true) ∧
    ((useAllAlertRuleAbilities allowAllCtx provisionedRule readyEditState allChoiceQuery
        AlertRuleAction.Update).1 = false ∧
     (useAllAlertRuleAbilities allowAllCtx provisionedRule readyEditState allChoiceQuery
        AlertRuleAction.Delete).1 = false ∧
     (useAllAlertRuleAbilities allowAllCtx provisionedRule readyEditState allChoiceQuery
        AlertRuleAction.ModifyExport).1 =
       (!readyEditState.loading && readyEditState.isRulerAvailable.getD false)) :=
  ⟨Or.inl (by decide),
    immutable_update_delete_unsupported allowAllCtx provisionedRule readyEditState
      allChoiceQuery (Or.inl (by decide))⟩

/-- Claim C2: while the rule-editability collaborator is loading, the four
ruler-dependent actions Duplicate, Update, Delete and ModifyExport all have
`supported = false`, for every rule, ruler-availability value and choice
query. -/
theorem loading_ruler_actions_unsupported (ctx : PermissionCtx) (rule : CombinedRule)
    (editState : IsRuleEditableResult) (q : AmChoiceQueryState)
    (h : editState.loading = true) :
    (useAllAlertRuleAbilities ctx rule editState q AlertRuleAction.Duplicate).1 = false ∧
    (useAllAlertRuleAbilities ctx rule editState q AlertRuleAction.Update).1 = false ∧
    (useAllAlertRuleAbilities ctx rule editState q AlertRuleAction.Delete).1 = false ∧
    (useAllAlertRuleAbilities ctx rule editState q AlertRuleAction.ModifyExport).1 = false := by
  simp [useAllAlertRuleAbilities, toAbility, maybeSupported, maybeSupportedUnlessImmutable,
    h, NotSupported]

/-- Witness for C2 on a concrete loading snapshot that reports the ruler
available and the rule editable. -/
theorem loading_ruler_actions_unsupported_witness :
    loadingEditState.loading = true ∧
    ((useAllAlertRuleAbilities allowAllCtx plainGrafanaRule loadingEditState allChoiceQuery
        AlertRuleAction.Duplicate).1 = false ∧
     (useAllAlertRuleAbilities allowAllCtx plainGrafanaRule loadingEditState allChoiceQuery
        AlertRuleAction.Update).1 = false ∧
     (useAllAlertRuleAbilities allowAllCtx plainGrafanaRule loadingEditState allChoiceQuery
        AlertRuleAction.Delete).1 = false ∧
     (useAllAlertRuleAbilities allowAllCtx plainGrafanaRule loadingEditState allChoiceQuery
        AlertRuleAction.ModifyExport).1 = false) :=
  ⟨rfl, loading_ruler_actions_unsupported allowAllCtx plainGrafanaRule loadingEditState
    allChoiceQuery rfl⟩

/-- Claim C3: the Silence ability is exactly `(false, false)` whenever the
rule's source is not the built-in engine, and for every rule while the
alertmanager-choice lookup is loading. -/
theorem silence_false_false_nonbuiltin_or_loading (ctx : PermissionCtx) (rule : CombinedRule)
    (editState : IsRuleEditableResult) (q : AmChoiceQueryState)
    (h : isGrafanaRulesSource rule.ruleNamespace.rulesSource = false ∨ q.isLoading = true) :
    useAllAlertRuleAbilities ctx rule editState q AlertRuleAction.Silence = (false, false) := by
  simp only [useAllAlertRuleAbilities, useCanSilence]
  rcases h with h | h <;> simp [h]

/-- Witness for C3 on a concrete rule from an external data source, with
the choice query finished. -/
theorem silence_false_false_nonbuiltin_or_loading_witness :
    (isGrafanaRulesSource externalSourceRule.ruleNamespace.rulesSource = false ∨
      allChoiceQuery.isLoading = true) ∧
    useAllAlertRuleAbilities allowAllCtx externalSourceRule readyEditState allChoiceQuery
      AlertRuleAction.Silence = (false, false) :=
  ⟨Or.inl rfl,
    silence_false_false_nonbuiltin_or_loading allowAllCtx externalSourceRule readyEditState
      allChoiceQuery (Or.inl rfl)⟩

/-- Claim C4: for a built-in-engine rule with the choice lookup finished
and data present, Silence's supported component is false for the
external-only choice and true for the all and internal-only choices. -/
theorem silence_supported_by_choice (ctx : PermissionCtx) (rule : CombinedRule)
    (editState : IsRuleEditableResult) (q : AmChoiceQueryState) (c : AlertmanagerChoice)
    (hsrc : isGrafanaRulesSource rule.ruleNamespace.rulesSource = true)
    (hload : q.isLoading = false)
    (hdata : q.currentData = some { alertmanagersChoice := c }) :
    ((c = AlertmanagerChoice.External →
        (useAllAlertRuleAbilities ctx rule editState q AlertRuleAction.Silence).1 = false) ∧
     (c = AlertmanagerChoice.All →
        (useAllAlertRuleAbilities ctx rule editState q AlertRuleAction.Silence).1 = true) ∧
     (c = AlertmanagerChoice.Internal →
        (useAllAlertRuleAbilities ctx rule editState q AlertRuleAction.Silence).1 = true)) := by
  simp only [useAllAlertRuleAbilities, useCanSilence, choiceIs, hsrc, hload, hdata, toAbility]
  cases c <;> simp

/-- Witness for C4 with the concrete routing choice `All`. -/
theorem silence_supported_by_choice_witness :
    isGrafanaRulesSource plainGrafanaRule.ruleNamespace.rulesSource = true ∧
    allChoiceQuery.isLoading = false ∧
    allChoiceQuery.currentData = some { alertmanagersChoice := AlertmanagerChoice.All } ∧
    ((AlertmanagerChoice.All = AlertmanagerChoice.External →
        (useAllAlertRuleAbilities allowAllCtx plainGrafanaRule readyEditState allChoiceQuery
          AlertRuleAction.Silence).1 = false) ∧
     (AlertmanagerChoice.All = AlertmanagerChoice.All →
        (useAllAlertRuleAbilities allowAllCtx plainGrafanaRule readyEditState allChoiceQuery
          AlertRuleAction.Silence).1 = true) ∧
     (AlertmanagerChoice.All = AlertmanagerChoice.Internal →
        (useAllAlertRuleAbilities allowAllCtx plainGrafanaRule readyEditState allChoiceQuery
          AlertRuleAction.Silence).1 = true)) :=
  ⟨by decide, rfl, rfl,
    silence_supported_by_choice allowAllCtx plainGrafanaRule readyEditState allChoiceQuery
      AlertmanagerChoice.All (by decide) rfl rfl⟩

/-- Claim C5: in every alertmanager context, each Create/Update/Delete-class
alertmanager action has its supported component exactly equal to
`hasConfigurationAPI`, whatever `isGrafanaFlavored` is. -/
theorem cud_actions_supported_iff_configuration_api (ctx : PermissionCtx)
    (am : AlertmanagerContextState) :
    (useAllAlertmanagerAbilities ctx am AlertmanagerAction.UpdateExternalConfiguration).1 =
      am.hasConfigurationAPI ∧
    (useAllAlertmanagerAbilities ctx am AlertmanagerAction.CreateContactPoint).1 =
      am.hasConfigurationAPI ∧
    (useAllAlertmanagerAbilities ctx am AlertmanagerAction.UpdateContactPoint).1 =
      am.hasConfigurationAPI ∧
    (useAllAlertmanagerAbilities ctx am AlertmanagerAction.DeleteContactPoint).1 =
      am.hasConfigurationAPI ∧
    (useAllAlertmanagerAbilities ctx am AlertmanagerAction.CreateNotificationTemplate).1 =
      am.hasConfigurationAPI ∧
    (useAllAlertmanagerAbilities ctx am AlertmanagerAction.UpdateNotificationTemplate).1 =
      am.hasConfigurationAPI ∧
    (useAllAlertmanagerAbilities ctx am AlertmanagerAction.DeleteNotificationTemplate).1 =
      am.hasConfigurationAPI ∧
    (useAllAlertmanagerAbilities ctx am AlertmanagerAction.CreateNotificationPolicy).1 =
      am.hasConfigurationAPI ∧
    (useAllAlertmanagerAbilities ctx am AlertmanagerAction.UpdateNotificationPolicyTree).1 =
      am.hasConfigurationAPI ∧
    (useAllAlertmanagerAbilities ctx am AlertmanagerAction.DeleteNotificationPolicy).1 =
      am.hasConfigurationAPI ∧
    (useAllAlertmanagerAbilities ctx am AlertmanagerAction.CreateSilence).1 =
      am.hasConfigurationAPI ∧
    (useAllAlertmanagerAbilities ctx am AlertmanagerAction.UpdateSilence).1 =
      am.hasConfigurationAPI ∧
    (useAllAlertmanagerAbilities ctx am AlertmanagerAction.CreateMuteTiming).1 =
      am.hasConfigurationAPI ∧
    (useAllAlertmanagerAbilities ctx am AlertmanagerAction.UpdateMuteTiming).1 =
      am.hasConfigurationAPI ∧
    (useAllAlertmanagerAbilities ctx am AlertmanagerAction.DeleteMuteTiming).1 =
      am.hasConfigurationAPI :=
  ⟨rfl, rfl, rfl, rfl, rfl, rfl, rfl, rfl, rfl, rfl, rfl, rfl, rfl, rfl, rfl⟩

/-- Claim C6: in every alertmanager context, ExportContactPoint,
ExportNotificationPolicies and DecryptSecrets have their supported
component exactly equal to `isGrafanaFlavored`, whatever
`hasConfigurationAPI` is — in particular false whenever the alertmanager
is not Grafana-flavored. -/
theorem export_decrypt_supported_iff_grafana_flavored (ctx : PermissionCtx)
    (am : AlertmanagerContextState) :
    (useAllAlertmanagerAbilities ctx am AlertmanagerAction.ExportContactPoint).1 =
      am.isGrafanaAlertmanager ∧
    (useAllAlertmanagerAbilities ctx am AlertmanagerAction.ExportNotificationPolicies).1 =
      am.isGrafanaAlertmanager ∧
    (useAllAlertmanagerAbilities ctx am AlertmanagerAction.DecryptSecrets).1 =
      am.isGrafanaAlertmanager :=
  ⟨rfl, rfl, rfl⟩

/-- Claim C7: when the externally supplied `isEditable` flag is absent the
Update ability's allowed component is false, and when `isRemovable` is
absent the Delete ability's allowed component is false; resolution is a
total function, so no input makes it throw. -/
theorem absent_optional_flags_default_false (ctx : PermissionCtx) (rule : CombinedRule)
    (editState : IsRuleEditableResult) (q : AmChoiceQueryState) :
    (editState.isEditable = none →
      (useAllAlertRuleAbilities ctx rule editState q AlertRuleAction.Update).2 = false) ∧
    (editState.isRemovable = none →
      (useAllAlertRuleAbilities ctx rule editState q AlertRuleAction.Delete).2 = false) := by
  constructor <;> intro h <;> simp [useAllAlertRuleAbilities, h]

/-- Witness for C7 on a concrete snapshot with both optional flags absent. -/
theorem absent_optional_flags_default_false_witness :
    absentFlagsEditState.isEditable = none ∧
    (useAllAlertRuleAbilities allowAllCtx plainGrafanaRule absentFlagsEditState allChoiceQuery
      AlertRuleAction.Update).2 = false ∧
    absentFlagsEditState.isRemovable = none ∧
    (useAllAlertRuleAbilities allowAllCtx plainGrafanaRule absentFlagsEditState allChoiceQuery
      AlertRuleAction.Delete).2 = false :=
  ⟨rfl,
    (absent_optional_flags_default_false allowAllCtx plainGrafanaRule absentFlagsEditState
      allChoiceQuery).1 rfl,
    rfl,
    (absent_optional_flags_default_false allowAllCtx plainGrafanaRule absentFlagsEditState
      allChoiceQuery).2 rfl⟩

/-- Claim C8: every entry of the general alerting ability table has
`supported = true` and its allowed component is the permission
collaborator's verdict on that action's statically mapped permission
identifier. -/
theorem alerting_abilities_fixed_table (ctx : PermissionCtx) (a : AlertingAction) :
    useAlertingAbilities ctx a =
      (true, ctx (PermissionId.acp (alertingActionPermission a))) := by
  cases a <;> rfl

/-- Claim C9: for a built-in-engine rule with the choice lookup finished
and routing choice external-only, the Silence ability is
`(false, hasPermission(create-silence-instance))`: the allowed component
still comes from the permission check even though supported is false. -/
theorem silence_allowed_survives_external_only (ctx : PermissionCtx) (rule : CombinedRule)
    (editState : IsRuleEditableResult) (q : AmChoiceQueryState)
    (hsrc : isGrafanaRulesSource rule.ruleNamespace.rulesSource = true)
    (hload : q.isLoading = false)
    (hdata : q.currentData = some { alertmanagersChoice := AlertmanagerChoice.External }) :
    useAllAlertRuleAbilities ctx rule editState q AlertRuleAction.Silence =
      (false, ctx (PermissionId.acp AccessControlAction.AlertingInstanceCreate)) := by
  simp [useAllAlertRuleAbilities, useCanSilence, choiceIs, hsrc, hload, hdata, toAbility]

/-- Witness for C9: with an all-granting permission collaborator the pair
is `(false, true)`, so allowed is not forced to false. -/
theorem silence_allowed_survives_external_only_witness :
    isGrafanaRulesSource plainGrafanaRule.ruleNamespace.rulesSource = true ∧
    externalChoiceQuery.isLoading = false ∧
    externalChoiceQuery.currentData =
      some { alertmanagersChoice := AlertmanagerChoice.External } ∧
    useAllAlertRuleAbilities allowAllCtx plainGrafanaRule readyEditState externalChoiceQuery
      AlertRuleAction.Silence =
      (false, allowAllCtx (PermissionId.acp AccessControlAction.AlertingInstanceCreate)) :=
  ⟨by decide, rfl, rfl,
    silence_allowed_survives_external_only allowAllCtx plainGrafanaRule readyEditState
      externalChoiceQuery (by decide) rfl rfl⟩

end Abilities

namespace PublicDashboards

/-- Claim C10: the payload of the public-dashboard update is the existing
public dashboard with exactly `annotationsEnabled`, `timeSelectionEnabled`
and `isEnabled = !isPaused` replaced from the form; every other field is
passed through unchanged. -/
theorem update_payload_frame (pd : PublicDashboard) (values : ConfigPublicDashboardForm) :
    (onPublicDashboardUpdate pd values).annotationsEnabled = values.isAnnotationsEnabled ∧
    (onPublicDashboardUpdate pd values).timeSelectionEnabled = values.isTimeSelectionEnabled ∧
    (onPublicDashboardUpdate pd values).isEnabled = (!values.isPaused) ∧
    (onPublicDashboardUpdate pd values).uid = pd.uid ∧
    (onPublicDashboardUpdate pd values).dashboardUid = pd.dashboardUid ∧
    (onPublicDashboardUpdate pd values).accessToken = pd.accessToken ∧
    (onPublicDashboardUpdate pd values).share = pd.share ∧
    (onPublicDashboardUpdate pd values).recipients = pd.recipients :=
  ⟨rfl, rfl, rfl, rfl, rfl, rfl, rfl, rfl⟩

end PublicDashboards
